import Mathlib

/-!
Verification of the food data model of the nutritional-psychiatry-database
repository (src/src/models/food-data.ts and src/src/models/food-data-model.ts).

Two views of the code are embedded:
* a typed view mirroring the TypeScript interfaces (numbers as rationals,
  optional / nullable fields as `Option`), used for `validate`,
  `calculateCompleteness`, `hasBrainNutrient`, `getBrainNutrient` and the
  class constructor;
* a dynamic view (`JsValue`) of untyped JavaScript values, used for
  `isFoodData`, `fromJSON` and `toJSON`, which operate on arbitrary JSON.
-/

set_option autoImplicit false

namespace NutriPsych

/-! ## Typed data model, from src/src/models/food-data.ts -/

/-- `MetadataObject` of food-data.ts. -/
structure MetadataObject where
  version : String
  created : String
  lastUpdated : String
  sourceUrls : List String
  sourceIds : Option (List (String × String)) := none
  imageUrl : Option String := none
  tags : List String
deriving Repr, DecidableEq

/-- The closed union type of winning source tags in
`DataQuality.sourcePriority` (food-data.ts lines 33-45). -/
inductive SourceTag where
  | usda
  | openfoodfacts
  | literature
  | ai_generated
deriving Repr, DecidableEq

/-- The union type of `DataQuality.brainNutrientsSource`. -/
inductive BrainNutrientsSource where
  | usda_provided
  | openfoodfacts
  | literature_derived
  | ai_generated
  | expert_estimated
deriving Repr, DecidableEq

/-- The union type of `DataQuality.impactsSource`. -/
inductive ImpactsSource where
  | direct_studies
  | literature_review
  | mechanism_inference
  | ai_generated
deriving Repr, DecidableEq

/-- The anonymous object type of `DataQuality.sourcePriority`. -/
structure SourcePriority where
  standardNutrients : Option SourceTag := none
  brainNutrients : Option SourceTag := none
  bioactiveCompounds : Option SourceTag := none
deriving Repr, DecidableEq

/-- `DataQuality` of food-data.ts. -/
structure DataQuality where
  completeness : ℚ
  overallConfidence : ℚ
  brainNutrientsSource : Option BrainNutrientsSource := none
  impactsSource : Option ImpactsSource := none
  sourcePriority : Option SourcePriority := none
deriving Repr, DecidableEq

/-- `ServingInfo` of food-data.ts. -/
structure ServingInfo where
  servingSize : ℚ
  servingUnit : String
  householdServing : Option String := none
deriving Repr, DecidableEq

/-- `StandardNutrients` of food-data.ts: every field optional. -/
structure StandardNutrients where
  calories : Option ℚ := none
  protein_g : Option ℚ := none
  carbohydrates_g : Option ℚ := none
  fat_g : Option ℚ := none
  fiber_g : Option ℚ := none
  sugars_g : Option ℚ := none
  sugars_added_g : Option ℚ := none
  calcium_mg : Option ℚ := none
  iron_mg : Option ℚ := none
  magnesium_mg : Option ℚ := none
  phosphorus_mg : Option ℚ := none
  potassium_mg : Option ℚ := none
  sodium_mg : Option ℚ := none
  zinc_mg : Option ℚ := none
  copper_mg : Option ℚ := none
  manganese_mg : Option ℚ := none
  selenium_mcg : Option ℚ := none
  vitamin_c_mg : Option ℚ := none
  vitamin_a_iu : Option ℚ := none
deriving Repr, DecidableEq

/-- `Omega3` of food-data.ts. -/
structure Omega3 where
  total_g : Option ℚ := none
  epa_mg : Option ℚ := none
  dha_mg : Option ℚ := none
  ala_mg : Option ℚ := none
  confidence : Option ℚ := none
deriving Repr, DecidableEq

/-- `BrainNutrients` of food-data.ts. -/
structure BrainNutrients where
  tryptophan_mg : Option ℚ := none
  tyrosine_mg : Option ℚ := none
  vitamin_b6_mg : Option ℚ := none
  folate_mcg : Option ℚ := none
  vitamin_b12_mcg : Option ℚ := none
  vitamin_d_mcg : Option ℚ := none
  magnesium_mg : Option ℚ := none
  zinc_mg : Option ℚ := none
  iron_mg : Option ℚ := none
  selenium_mcg : Option ℚ := none
  choline_mg : Option ℚ := none
  omega3 : Option Omega3 := none
deriving Repr, DecidableEq

/-- `BioactiveCompounds` of food-data.ts. -/
structure BioactiveCompounds where
  polyphenols_mg : Option ℚ := none
  flavonoids_mg : Option ℚ := none
  anthocyanins_mg : Option ℚ := none
  carotenoids_mg : Option ℚ := none
  probiotics_cfu : Option ℚ := none
  prebiotic_fiber_g : Option ℚ := none
deriving Repr, DecidableEq

/-- `ResearchSupport` of food-data.ts. -/
structure ResearchSupport where
  citation : String
  doi : Option String := none
  url : Option String := none
  study_type : Option String := none
  year : Option ℤ := none
deriving Repr, DecidableEq

/-- The union type of `MentalHealthImpact.impact_type`. -/
inductive ImpactType where
  | mood_elevation
  | mood_depression
  | anxiety_reduction
  | anxiety_increase
  | cognitive_enhancement
  | cognitive_decline
  | energy_increase
  | energy_decrease
  | stress_reduction
  | sleep_improvement
  | gut_health_improvement
deriving Repr, DecidableEq

/-- The union type of `MentalHealthImpact.direction`. -/
inductive ImpactDirection where
  | positive
  | negative
  | neutral
  | mixed
deriving Repr, DecidableEq

/-- The union type of `MentalHealthImpact.time_to_effect`. -/
inductive TimeToEffect where
  | acute
  | cumulative
  | both_acute_and_cumulative
deriving Repr, DecidableEq

/-- `MentalHealthImpact` of food-data.ts. -/
structure MentalHealthImpact where
  impact_type : ImpactType
  direction : ImpactDirection
  mechanism : String
  strength : ℚ
  confidence : ℚ
  time_to_effect : Option TimeToEffect := none
  research_context : Option String := none
  research_support : Option (List ResearchSupport) := none
  notes : Option String := none
deriving Repr, DecidableEq

/-- The union type of `NutrientInteraction.interaction_type`. -/
inductive InteractionType where
  | synergistic
  | antagonistic
  | required_cofactor
  | protective
  | inhibitory
deriving Repr, DecidableEq

/-- `NutrientInteraction` of food-data.ts. -/
structure NutrientInteraction where
  interaction_id : String
  nutrients_involved : List String
  interaction_type : InteractionType
  pathway : Option String := none
  mechanism : String
  mental_health_relevance : Option String := none
  confidence : ℚ
  research_support : Option (List ResearchSupport) := none
  foods_demonstrating : Option (List String) := none
deriving Repr, DecidableEq

/-- `CircadianFactor` of food-data.ts. -/
structure CircadianFactor where
  factor : String
  effects : List String
  relevant_to : List String
  confidence : ℚ
  citations : Option (List String) := none
deriving Repr, DecidableEq

/-- `CircadianEffects` of food-data.ts. -/
structure CircadianEffects where
  description : Option String := none
  factors : List CircadianFactor
deriving Repr, DecidableEq

/-- `FoodCombination` of food-data.ts. -/
structure FoodCombination where
  combination : String
  effects : List String
  relevant_to : List String
  confidence : ℚ
deriving Repr, DecidableEq

/-- `PreparationEffect` of food-data.ts. -/
structure PreparationEffect where
  method : String
  effects : List String
  relevant_to : List String
  confidence : ℚ
deriving Repr, DecidableEq

/-- `ContextualFactors` of food-data.ts. -/
structure ContextualFactors where
  circadian_effects : Option CircadianEffects := none
  food_combinations : Option (List FoodCombination) := none
  preparation_effects : Option (List PreparationEffect) := none
deriving Repr, DecidableEq

/-- The anonymous element type of `PopulationVariation.variations`. -/
structure PopulationVariationItem where
  nutrient : String
  effect : String
  mechanism : Option String := none
  impact_modifier : Option ℚ := none
  recommendations : Option (List String) := none
  confidence : ℚ
  citations : Option (List String) := none
deriving Repr, DecidableEq

/-- `PopulationVariation` of food-data.ts. -/
structure PopulationVariation where
  population : String
  description : String
  variations : List PopulationVariationItem
deriving Repr, DecidableEq

/-- The union type of `DietaryPattern.pattern_name`. -/
inductive PatternName where
  | mediterranean
  | western
  | dash
  | mind
  | vegetarian
  | vegan
  | ketogenic
  | low_fodmap
deriving Repr, DecidableEq

/-- The union type of `DietaryPattern.pattern_contribution`. -/
inductive PatternContribution where
  | key_component
  | supportive
  | occasional
  | limited
  | avoided
deriving Repr, DecidableEq

/-- `DietaryPattern` of food-data.ts. -/
structure DietaryPattern where
  pattern_name : PatternName
  pattern_contribution : PatternContribution
  mental_health_relevance : Option String := none
deriving Repr, DecidableEq

/-- The union type of `InflammatoryIndex.calculation_method`. -/
inductive CalculationMethod where
  | dietary_inflammatory_index
  | empirical_dietary_index
  | expert_estimate
deriving Repr, DecidableEq

/-- `InflammatoryIndex` of food-data.ts. -/
structure InflammatoryIndex where
  value : ℚ
  confidence : ℚ
  calculation_method : CalculationMethod
  citations : List String
deriving Repr, DecidableEq

/-- The union type of `NeuralTarget.effect`. -/
inductive NeuralEffect where
  | upregulation
  | downregulation
  | modulation
  | protection
deriving Repr, DecidableEq

/-- `NeuralTarget` of food-data.ts. -/
structure NeuralTarget where
  pathway : String
  effect : NeuralEffect
  confidence : ℚ
  mechanisms : Option (List String) := none
  mental_health_relevance : Option String := none
deriving Repr, DecidableEq

/-- Runtime state of a `FoodDataModel` class instance
(food-data-model.ts lines 24-73).  Although `food_id`, `name`, `category`,
`standard_nutrients`, `data_quality` and `metadata` are declared required,
`Object.assign(this, data)` in the constructor can overwrite any of them
with `undefined`/`null` when the corresponding key is present in the input
with a nullish value, so every property is modelled as an `Option`
(`none` = the JavaScript value is `undefined` or `null`). -/
structure FoodDataModel where
  food_id : Option String := none
  name : Option String := none
  category : Option String := none
  standard_nutrients : Option StandardNutrients := none
  data_quality : Option DataQuality := none
  metadata : Option MetadataObject := none
  description : Option String := none
  serving_info : Option ServingInfo := none
  brain_nutrients : Option BrainNutrients := none
  bioactive_compounds : Option BioactiveCompounds := none
  mental_health_impacts : Option (List MentalHealthImpact) := none
  nutrient_interactions : Option (List NutrientInteraction) := none
  contextual_factors : Option ContextualFactors := none
  population_variations : Option (List PopulationVariation) := none
  dietary_patterns : Option (List DietaryPattern) := none
  inflammatory_index : Option InflammatoryIndex := none
  neural_targets : Option (List NeuralTarget) := none
deriving Repr, DecidableEq

/-! ## Operations of the FoodDataModel class, from src/src/models/food-data-model.ts -/

/-- JavaScript truthiness of an optional string: `undefined`, `null` and the
empty string are falsy.  Models the `!this.food_id` style checks of
`validate` (food-data-model.ts lines 83-85). -/
def strFalsy : Option String → Bool
  | none => true
  | some s => s == ""

/-- The validation errors pushed by `FoodDataModel.validate`
(food-data-model.ts lines 79-123), as distinguishable values; `render`
gives the exact message strings the code pushes. -/
inductive ValidationError where
  | missingFoodId
  | missingName
  | missingCategory
  | missingStandardNutrients
  | missingDataQuality
  | completenessRange
  | confidenceRange
  | impactStrength (n : ℕ)
  | impactConfidence (n : ℕ)
deriving Repr, DecidableEq

/-- The exact message string `validate` pushes for each error.  For the two
impact errors `n` is the 1-based index interpolated by the code
(template `Impact #(index + 1): ...`). -/
def ValidationError.render : ValidationError → String
  | .missingFoodId => "Missing food_id"
  | .missingName => "Missing name"
  | .missingCategory => "Missing category"
  | .missingStandardNutrients => "Missing standard_nutrients"
  | .missingDataQuality => "Missing data_quality"
  | .completenessRange => "Completeness must be between 0 and 1"
  | .confidenceRange => "Overall confidence must be between 1 and 10"
  | .impactStrength n => "Impact #" ++ Nat.repr n ++ ": Strength must be between 1 and 10"
  | .impactConfidence n => "Impact #" ++ Nat.repr n ++ ": Confidence must be between 1 and 10"

/-- The `forEach((impact, index) => ...)` loop of `validate`
(food-data-model.ts lines 108-119): `n` is `index + 1`, the number printed
in the message, starting at 1 for the head of the list. -/
def validateImpactsFrom (n : ℕ) : List MentalHealthImpact → List ValidationError
  | [] => []
  | impact :: rest =>
      (if impact.strength < 1 ∨ impact.strength > 10 then [.impactStrength n] else []) ++
      (if impact.confidence < 1 ∨ impact.confidence > 10 then [.impactConfidence n] else []) ++
      validateImpactsFrom (n + 1) rest

/-- `FoodDataModel.validate` (food-data-model.ts lines 79-123): the pushes
happen in source order — required identity fields, then the data-quality
block, then the mental-health-impact entries. -/
def FoodDataModel.validate (r : FoodDataModel) : List ValidationError :=
  (if strFalsy r.food_id then [.missingFoodId] else []) ++
  (if strFalsy r.name then [.missingName] else []) ++
  (if strFalsy r.category then [.missingCategory] else []) ++
  (if r.standard_nutrients = none then [.missingStandardNutrients] else []) ++
  (match r.data_quality with
   | none => [.missingDataQuality]
   | some dq =>
      (if dq.completeness < 0 ∨ dq.completeness > 1 then [.completenessRange] else []) ++
      (if dq.overallConfidence < 1 ∨ dq.overallConfidence > 10 then [.confidenceRange] else [])) ++
  (match r.mental_health_impacts with
   | none => []
   | some impacts => if impacts.length > 0 then validateImpactsFrom 1 impacts else [])

/-- The `stdNutrientFields` checklist of `calculateCompleteness`
(food-data-model.ts lines 134-141), read off a `StandardNutrients` object
in the array's order. -/
def stdChecklist (sn : StandardNutrients) : List (Option ℚ) :=
  [sn.calories, sn.protein_g, sn.carbohydrates_g, sn.fat_g, sn.fiber_g, sn.sugars_g]

/-- The `brainNutrientFields` checklist of `calculateCompleteness`
(food-data-model.ts lines 150-159). -/
def brainChecklist (bn : BrainNutrients) : List (Option ℚ) :=
  [bn.tryptophan_mg, bn.vitamin_b6_mg, bn.folate_mcg, bn.vitamin_b12_mcg,
   bn.vitamin_d_mcg, bn.magnesium_mg, bn.zinc_mg, bn.iron_mg]

/-- The `omega3Fields` checklist of `calculateCompleteness`
(food-data-model.ts line 169). -/
def omega3Checklist (o : Omega3) : List (Option ℚ) :=
  [o.total_g, o.epa_mg, o.dha_mg, o.ala_mg]

/-- `FoodDataModel.calculateCompleteness` (food-data-model.ts lines
129-184).  Returns `none` exactly when the JavaScript code would throw a
`TypeError`: the standard-nutrient loop reads
`this.standard_nutrients[field]` unguarded, so a nullish
`standard_nutrients` crashes.  `countP Option.isSome` counts the loop
increments `if (... != null) fieldsWithValues++`; the brain-nutrient and
omega-3 sections are guarded by `if (this.brain_nutrients)` and
`if (this.brain_nutrients.omega3)` exactly as in the source, each adding
its checklist length to `totalFields`. -/
def FoodDataModel.calculateCompleteness (r : FoodDataModel) : Option ℚ :=
  match r.standard_nutrients with
  | none => none
  | some sn =>
    let totalFields : ℕ := 6
    let fieldsWithValues : ℕ := (stdChecklist sn).countP Option.isSome
    let counts : ℕ × ℕ :=
      match r.brain_nutrients with
      | none => (fieldsWithValues, totalFields)
      | some bn =>
        let totalFields := totalFields + 8
        let fieldsWithValues := fieldsWithValues + (brainChecklist bn).countP Option.isSome
        match bn.omega3 with
        | none => (fieldsWithValues, totalFields)
        | some o =>
            (fieldsWithValues + (omega3Checklist o).countP Option.isSome, totalFields + 4)
    some (if counts.2 > 0 then (counts.1 : ℚ) / (counts.2 : ℚ) else 0)

/-- Dynamic string indexing `this.brain_nutrients[nutrient]` restricted to
number-valued fields: the value stored under a flat nutrient name, `none`
for an unknown name or an unset field (JavaScript `undefined`). -/
def brainNumField (bn : BrainNutrients) (nutrient : String) : Option ℚ :=
  if nutrient == "tryptophan_mg" then bn.tryptophan_mg
  else if nutrient == "tyrosine_mg" then bn.tyrosine_mg
  else if nutrient == "vitamin_b6_mg" then bn.vitamin_b6_mg
  else if nutrient == "folate_mcg" then bn.folate_mcg
  else if nutrient == "vitamin_b12_mcg" then bn.vitamin_b12_mcg
  else if nutrient == "vitamin_d_mcg" then bn.vitamin_d_mcg
  else if nutrient == "magnesium_mg" then bn.magnesium_mg
  else if nutrient == "zinc_mg" then bn.zinc_mg
  else if nutrient == "iron_mg" then bn.iron_mg
  else if nutrient == "selenium_mcg" then bn.selenium_mcg
  else if nutrient == "choline_mg" then bn.choline_mg
  else none

/-- Dynamic indexing of an `Omega3` object. -/
def omega3NumField (o : Omega3) (field : String) : Option ℚ :=
  if field == "total_g" then o.total_g
  else if field == "epa_mg" then o.epa_mg
  else if field == "dha_mg" then o.dha_mg
  else if field == "ala_mg" then o.ala_mg
  else if field == "confidence" then o.confidence
  else none

/-- Split a character list at every occurrence of `c` (the splitter of
`String.prototype.split` with a one-character separator). -/
def splitAux (c : Char) : List Char → List (List Char)
  | [] => [[]]
  | ch :: rest =>
    match splitAux c rest with
    | [] => [[ch]]
    | l :: ls => if ch == c then [] :: l :: ls else (ch :: l) :: ls

/-- JavaScript `s.split(c)` for a one-character separator. -/
def splitOnChar (c : Char) (s : String) : List String :=
  (splitAux c s.data).map (fun l => String.mk l)

/-- JavaScript `s.includes(".")`. -/
def containsDot (s : String) : Bool :=
  s.data.any (fun ch => ch == '.')

/-- The raw value of `this.brain_nutrients[nutrient]` resp.
`this.brain_nutrients[section]?.[field]` before the truthiness coercion,
shared by `hasBrainNutrient` and `getBrainNutrient` (food-data-model.ts
lines 189-214).  A dotted path is destructured to its first two pieces
(`const [section, field] = nutrient.split(".")`); the optional chain
yields `undefined` (`none`) unless the section names the `omega3` object
and it is present — indexing a numeric section with `?.[field]` gives
`undefined`, not a crash. -/
def rawBrainIndex (bn : BrainNutrients) (nutrient : String) : Option ℚ :=
  if containsDot nutrient then
    match splitOnChar '.' nutrient with
    | s :: f :: _ =>
        if s == "omega3" then
          match bn.omega3 with
          | some o => omega3NumField o f
          | none => none
        else none
    | _ => none
  else brainNumField bn nutrient

/-- The stored value a caller would read through the accessors: `none` when
`brain_nutrients` is absent or the field is unset, otherwise the stored
number (including a stored `0`).  This is the reference point against
which the falsy collapse of the two accessors is stated. -/
def FoodDataModel.storedBrainValue (r : FoodDataModel) (nutrient : String) : Option ℚ :=
  match r.brain_nutrients with
  | none => none
  | some bn => rawBrainIndex bn nutrient

/-- `FoodDataModel.hasBrainNutrient` (food-data-model.ts lines 189-199):
`!!value` — a stored `0` is falsy, so it reports `false`. -/
def FoodDataModel.hasBrainNutrient (r : FoodDataModel) (nutrient : String) : Bool :=
  match r.brain_nutrients with
  | none => false
  | some bn =>
      match rawBrainIndex bn nutrient with
      | none => false
      | some v => v != 0

/-- `FoodDataModel.getBrainNutrient` (food-data-model.ts lines 204-214):
`value || null` — a stored `0` is falsy and collapses to `null` (`none`). -/
def FoodDataModel.getBrainNutrient (r : FoodDataModel) (nutrient : String) : Option ℚ :=
  match r.brain_nutrients with
  | none => none
  | some bn =>
      match rawBrainIndex bn nutrient with
      | none => none
      | some v => if v == 0 then none else some v

/-- `FoodDataModel.hasMentalHealthImpacts` (food-data-model.ts lines 219-223). -/
def FoodDataModel.hasMentalHealthImpacts (r : FoodDataModel) : Bool :=
  match r.mental_health_impacts with
  | none => false
  | some impacts => impacts.length > 0

/-- `FoodDataModel.getImpactsByType` (food-data-model.ts lines 228-233). -/
def FoodDataModel.getImpactsByType (r : FoodDataModel) (t : ImpactType) : List MentalHealthImpact :=
  match r.mental_health_impacts with
  | none => []
  | some impacts => impacts.filter (fun impact => impact.impact_type == t)

/-! ## The class constructor, typed view (food-data-model.ts lines 49-73)

A `Partial<FoodData>` argument: every key may be absent, or present with a
possibly nullish value.  The outer `Option` is key presence (own property),
the inner `Option` is `undefined`/`null` versus a value — `Object.assign`
copies own properties even when their value is `undefined`. -/

/-- The constructor's `Partial<FoodData>` input. -/
structure ConstructorInput where
  food_id : Option (Option String) := none
  name : Option (Option String) := none
  category : Option (Option String) := none
  standard_nutrients : Option (Option StandardNutrients) := none
  data_quality : Option (Option DataQuality) := none
  metadata : Option (Option MetadataObject) := none
  description : Option (Option String) := none
  serving_info : Option (Option ServingInfo) := none
  brain_nutrients : Option (Option BrainNutrients) := none
  bioactive_compounds : Option (Option BioactiveCompounds) := none
  mental_health_impacts : Option (Option (List MentalHealthImpact)) := none
  nutrient_interactions : Option (Option (List NutrientInteraction)) := none
  contextual_factors : Option (Option ContextualFactors) := none
  population_variations : Option (Option (List PopulationVariation)) := none
  dietary_patterns : Option (Option (List DietaryPattern)) := none
  inflammatory_index : Option (Option InflammatoryIndex) := none
  neural_targets : Option (Option (List NeuralTarget)) := none
deriving Repr, DecidableEq

/-- JavaScript `x || dflt` for a string-typed `x`: nullish and the empty
string are falsy. -/
def jsOrString (x : Option (Option String)) (dflt : String) : String :=
  match x with
  | some (some s) => if s == "" then dflt else s
  | _ => dflt

/-- JavaScript `x || dflt` for an object-typed `x`: only nullish is falsy. -/
def jsOrObj {α : Type} (x : Option (Option α)) (dflt : α) : α :=
  match x with
  | some (some v) => v
  | _ => dflt

/-- The default `data_quality` object of the constructor
(food-data-model.ts lines 57-60). -/
def defaultDataQuality : DataQuality :=
  { completeness := 0, overallConfidence := 0 }

/-- The default `metadata` object of the constructor (lines 63-69); `now`
stands for `new Date().toISOString()`, which the engine does not control. -/
def defaultMetadata (now : String) : MetadataObject :=
  { version := "0.1.0", created := now, lastUpdated := now,
    sourceUrls := [], tags := [] }

/-- The state after the explicit initializations of the constructor body
(lines 51-69), before `Object.assign`. -/
def constructorInit (d : ConstructorInput) (now : String) : FoodDataModel :=
  { food_id := some (jsOrString d.food_id ""),
    name := some (jsOrString d.name ""),
    category := some (jsOrString d.category ""),
    standard_nutrients := some (jsOrObj d.standard_nutrients {}),
    data_quality := some (jsOrObj d.data_quality defaultDataQuality),
    metadata := some (jsOrObj d.metadata (defaultMetadata now)) }

/-- `Object.assign(this, data)` (line 72): every key present in the input
overwrites the corresponding property — including the six just-initialized
ones, and including overwrites with a nullish value. -/
def objectAssign (m : FoodDataModel) (d : ConstructorInput) : FoodDataModel :=
  { food_id := d.food_id.getD m.food_id,
    name := d.name.getD m.name,
    category := d.category.getD m.category,
    standard_nutrients := d.standard_nutrients.getD m.standard_nutrients,
    data_quality := d.data_quality.getD m.data_quality,
    metadata := d.metadata.getD m.metadata,
    description := d.description.getD m.description,
    serving_info := d.serving_info.getD m.serving_info,
    brain_nutrients := d.brain_nutrients.getD m.brain_nutrients,
    bioactive_compounds := d.bioactive_compounds.getD m.bioactive_compounds,
    mental_health_impacts := d.mental_health_impacts.getD m.mental_health_impacts,
    nutrient_interactions := d.nutrient_interactions.getD m.nutrient_interactions,
    contextual_factors := d.contextual_factors.getD m.contextual_factors,
    population_variations := d.population_variations.getD m.population_variations,
    dietary_patterns := d.dietary_patterns.getD m.dietary_patterns,
    inflammatory_index := d.inflammatory_index.getD m.inflammatory_index,
    neural_targets := d.neural_targets.getD m.neural_targets }

/-- The full constructor `new FoodDataModel(data)`. -/
def mkFoodDataModel (d : ConstructorInput) (now : String) : FoodDataModel :=
  objectAssign (constructorInit d now) d

/-! ## Checklist fields of `calculateCompleteness`, for stating the
completeness claims: one value per entry of the three field arrays. -/

/-- The six entries of `stdNutrientFields`. -/
inductive StdField where
  | calories | protein_g | carbohydrates_g | fat_g | fiber_g | sugars_g
deriving Repr, DecidableEq

/-- The eight entries of `brainNutrientFields`. -/
inductive BrainField where
  | tryptophan_mg | vitamin_b6_mg | folate_mcg | vitamin_b12_mcg
  | vitamin_d_mcg | magnesium_mg | zinc_mg | iron_mg
deriving Repr, DecidableEq

/-- The four entries of `omega3Fields`. -/
inductive Om3Field where
  | total_g | epa_mg | dha_mg | ala_mg
deriving Repr, DecidableEq

/-- A field of the completeness checklist. -/
inductive ChecklistField where
  | std (f : StdField)
  | brain (f : BrainField)
  | om3 (f : Om3Field)
deriving Repr, DecidableEq

def getStdField (sn : StandardNutrients) : StdField → Option ℚ
  | .calories => sn.calories
  | .protein_g => sn.protein_g
  | .carbohydrates_g => sn.carbohydrates_g
  | .fat_g => sn.fat_g
  | .fiber_g => sn.fiber_g
  | .sugars_g => sn.sugars_g

def setStdField (sn : StandardNutrients) (f : StdField) (v : ℚ) : StandardNutrients :=
  match f with
  | .calories => { sn with calories := some v }
  | .protein_g => { sn with protein_g := some v }
  | .carbohydrates_g => { sn with carbohydrates_g := some v }
  | .fat_g => { sn with fat_g := some v }
  | .fiber_g => { sn with fiber_g := some v }
  | .sugars_g => { sn with sugars_g := some v }

def getBrainField (bn : BrainNutrients) : BrainField → Option ℚ
  | .tryptophan_mg => bn.tryptophan_mg
  | .vitamin_b6_mg => bn.vitamin_b6_mg
  | .folate_mcg => bn.folate_mcg
  | .vitamin_b12_mcg => bn.vitamin_b12_mcg
  | .vitamin_d_mcg => bn.vitamin_d_mcg
  | .magnesium_mg => bn.magnesium_mg
  | .zinc_mg => bn.zinc_mg
  | .iron_mg => bn.iron_mg

def setBrainField (bn : BrainNutrients) (f : BrainField) (v : ℚ) : BrainNutrients :=
  match f with
  | .tryptophan_mg => { bn with tryptophan_mg := some v }
  | .vitamin_b6_mg => { bn with vitamin_b6_mg := some v }
  | .folate_mcg => { bn with folate_mcg := some v }
  | .vitamin_b12_mcg => { bn with vitamin_b12_mcg := some v }
  | .vitamin_d_mcg => { bn with vitamin_d_mcg := some v }
  | .magnesium_mg => { bn with magnesium_mg := some v }
  | .zinc_mg => { bn with zinc_mg := some v }
  | .iron_mg => { bn with iron_mg := some v }

def getOm3Field (o : Omega3) : Om3Field → Option ℚ
  | .total_g => o.total_g
  | .epa_mg => o.epa_mg
  | .dha_mg => o.dha_mg
  | .ala_mg => o.ala_mg

def setOm3Field (o : Omega3) (f : Om3Field) (v : ℚ) : Omega3 :=
  match f with
  | .total_g => { o with total_g := some v }
  | .epa_mg => { o with epa_mg := some v }
  | .dha_mg => { o with dha_mg := some v }
  | .ala_mg => { o with ala_mg := some v }

/-- Read one checklist field of a record (`none` when the field, or a block
on the way to it, is absent). -/
def FoodDataModel.getChecklistField (r : FoodDataModel) : ChecklistField → Option ℚ
  | .std f => (r.standard_nutrients.map (getStdField · f)).join
  | .brain f => (r.brain_nutrients.map (getBrainField · f)).join
  | .om3 f => ((r.brain_nutrients.bind BrainNutrients.omega3).map (getOm3Field · f)).join

/-- Populate one checklist field with a (non-null) value, creating the
enclosing block when it is absent — exactly what a data producer must do to
add that field to a record. -/
def FoodDataModel.setChecklistField (r : FoodDataModel) (cf : ChecklistField) (v : ℚ) :
    FoodDataModel :=
  match cf with
  | .std f => { r with standard_nutrients := some (setStdField (r.standard_nutrients.getD {}) f v) }
  | .brain f => { r with brain_nutrients := some (setBrainField (r.brain_nutrients.getD {}) f v) }
  | .om3 f =>
      let bn := r.brain_nutrients.getD {}
      { r with brain_nutrients := some { bn with omega3 := some (setOm3Field (bn.omega3.getD {}) f v) } }

/-- Does the record already contain the block that houses a checklist
field?  (Populating a field of a present block cannot change the
checklist's length.) -/
def FoodDataModel.blockPresent (r : FoodDataModel) : ChecklistField → Prop
  | .std _ => r.standard_nutrients.isSome
  | .brain _ => r.standard_nutrients.isSome ∧ r.brain_nutrients.isSome
  | .om3 _ => r.standard_nutrients.isSome ∧
      ∃ bn, r.brain_nutrients = some bn ∧ bn.omega3.isSome

/-- The checklist `calculateCompleteness` walks for a given record: the six
standard fields always, the eight brain fields when `brain_nutrients` is
present, the four omega-3 fields when additionally `omega3` is present. -/
def FoodDataModel.presentChecklist (r : FoodDataModel) : List ChecklistField :=
  [StdField.calories, .protein_g, .carbohydrates_g, .fat_g, .fiber_g, .sugars_g].map .std ++
  (match r.brain_nutrients with
   | none => []
   | some bn =>
      [BrainField.tryptophan_mg, .vitamin_b6_mg, .folate_mcg, .vitamin_b12_mcg,
       .vitamin_d_mcg, .magnesium_mg, .zinc_mg, .iron_mg].map .brain ++
      (match bn.omega3 with
       | none => []
       | some _ => [Om3Field.total_g, .epa_mg, .dha_mg, .ala_mg].map .om3))

/-- Number of populated checklist fields of a record. -/
def FoodDataModel.filledChecklistCount (r : FoodDataModel) : ℕ :=
  r.presentChecklist.countP (fun cf => (r.getChecklistField cf).isSome)

/-- Size of the checklist `calculateCompleteness` uses for a record. -/
def FoodDataModel.schemaFieldCount (r : FoodDataModel) : ℕ :=
  r.presentChecklist.length

/-! ## Dynamic view: untyped JavaScript values

`FoodDataModel.fromJSON` takes `json: any`, and the constructor's
`Object.assign` copies whatever own properties the input has, so
`isFoodData`, `fromJSON` and `toJSON` are modelled over a type of dynamic
values.  Numbers are rationals; an object is its own-property list in
insertion order (JavaScript objects have no duplicate keys). -/

inductive JsValue where
  | vNull
  | vUndefined
  | vBool (b : Bool)
  | vNum (q : ℚ)
  | vStr (s : String)
  | vArr (elems : List JsValue)
  | vObj (props : List (String × JsValue))

/-- JavaScript `typeof`; note `typeof null` and `typeof []` are both
`"object"`. -/
def jsTypeof : JsValue → String
  | .vNull => "object"
  | .vUndefined => "undefined"
  | .vBool _ => "boolean"
  | .vNum _ => "number"
  | .vStr _ => "string"
  | .vArr _ => "object"
  | .vObj _ => "object"

/-- JavaScript truthiness. -/
def jsTruthy : JsValue → Bool
  | .vNull => false
  | .vUndefined => false
  | .vBool b => b
  | .vNum q => q != 0
  | .vStr s => s != ""
  | .vArr _ => true
  | .vObj _ => true

/-- Property read on an own-property list: first match, else `undefined`. -/
def getProp (ps : List (String × JsValue)) (k : String) : JsValue :=
  match ps.find? (fun p => p.1 == k) with
  | some p => p.2
  | none => .vUndefined

/-- `Object.prototype.hasOwnProperty`. -/
def hasProp (ps : List (String × JsValue)) (k : String) : Bool :=
  (ps.find? (fun p => p.1 == k)).isSome

/-- Property write: overwrite an existing key in place, else append. -/
def setProp : List (String × JsValue) → String → JsValue → List (String × JsValue)
  | [], k, v => [(k, v)]
  | p :: rest, k, v => if p.1 == k then (k, v) :: rest else p :: setProp rest k v

/-- `Object.assign(target, source)`: copy the source's own properties in
order, each overwriting the target's. -/
def assignProps (ps : List (String × JsValue)) : List (String × JsValue) → List (String × JsValue)
  | [] => ps
  | (k, v) :: rest => assignProps (setProp ps k v) rest

/-- `j[k]` for a dynamic value: a property of a non-object primitive reads
as `undefined` (no property of that name exists on the wrappers used
here), and so does a named property of an array. -/
def jsGet (j : JsValue) (k : String) : JsValue :=
  match j with
  | .vObj ps => getProp ps k
  | _ => .vUndefined

/-- The own-property list of a value (empty for primitives). -/
def ownProps : JsValue → List (String × JsValue)
  | .vObj ps => ps
  | _ => []

/-- JavaScript `a || b`. -/
def jsOr (a b : JsValue) : JsValue :=
  if jsTruthy a then a else b

/-- `isFoodData` (food-data.ts lines 266-274), exactly the four `typeof`
checks guarded by the truthiness of the value itself. -/
def isFoodDataJs (j : JsValue) : Bool :=
  jsTruthy j &&
  (jsTypeof (jsGet j ("food_id")) == "string") &&
  (jsTypeof (jsGet j ("name")) == "string") &&
  (jsTypeof (jsGet j ("category")) == "string") &&
  (jsTypeof (jsGet j ("standard_nutrients")) == "object")

/-- The constructor's default `data_quality` object, as a dynamic value. -/
def defaultDataQualityJs : JsValue :=
  .vObj [("completeness", .vNum 0), ("overallConfidence", .vNum 0)]

/-- The constructor's default `metadata` object, as a dynamic value. -/
def defaultMetadataJs (now : String) : JsValue :=
  .vObj [("version", .vStr "0.1.0"), ("created", .vStr now),
         ("lastUpdated", .vStr now), ("sourceUrls", .vArr []),
         ("tags", .vArr [])]

/-- The six explicit property initializations of the constructor body
(food-data-model.ts lines 51-69), performed before `Object.assign`. -/
def constructBase (j : JsValue) (now : String) : List (String × JsValue) :=
  setProp
    (setProp
      (setProp
        (setProp
          (setProp
            (setProp [] ("food_id") (jsOr (jsGet j ("food_id")) (.vStr "")))
            ("name") (jsOr (jsGet j ("name")) (.vStr "")))
          ("category") (jsOr (jsGet j ("category")) (.vStr "")))
        ("standard_nutrients") (jsOr (jsGet j ("standard_nutrients")) (.vObj [])))
      ("data_quality") (jsOr (jsGet j ("data_quality")) defaultDataQualityJs))
    ("metadata") (jsOr (jsGet j ("metadata")) (defaultMetadataJs now))

/-- The constructor (food-data-model.ts lines 49-73) on a dynamic input:
the six explicit initializations followed by `Object.assign(this, data)`.
The result is the instance's own-property list. -/
def constructJs (j : JsValue) (now : String) : List (String × JsValue) :=
  assignProps (constructBase j now) (ownProps j)

/-- The seventeen `FoodData` schema fields, in the order `toJSON` writes
them (food-data-model.ts lines 245-265). -/
def declaredFields : List String :=
  ["food_id", "name", "description", "category", "serving_info",
   "standard_nutrients", "brain_nutrients", "bioactive_compounds",
   "mental_health_impacts", "nutrient_interactions", "contextual_factors",
   "population_variations", "dietary_patterns", "inflammatory_index",
   "neural_targets", "data_quality", "metadata"]

/-- `FoodDataModel.toJSON`: a plain object holding the seventeen declared
fields read off the instance. -/
def toJSONJs (inst : List (String × JsValue)) : JsValue :=
  .vObj (declaredFields.map (fun f => (f, getProp inst f)))

/-- `FoodDataModel.fromJSON` (food-data-model.ts lines 270-275): throws
`Invalid food data format` unless `isFoodData` accepts the input, then
constructs the instance. -/
def fromJSONJs (j : JsValue) (now : String) : Except String (List (String × JsValue)) :=
  if isFoodDataJs j then .ok (constructJs j now)
  else .error ("Invalid food data format")

/-- Is a dynamic value a string value?  (Spec-side reading of "a string
food_id".) -/
def isStringValue : JsValue → Bool
  | .vStr _ => true
  | _ => false

/-- Is a dynamic value an actual object (`{...}`)?  (Spec-side reading of
"an object standard_nutrients": `null` and arrays are not objects in this
sense, though JavaScript `typeof` calls them `"object"`.) -/
def isObjectValue : JsValue → Bool
  | .vObj _ => true
  | _ => false

/-- Is a dynamic value an array? -/
def isArrayValue : JsValue → Bool
  | .vArr _ => true
  | _ => false

/-- The winning source tags a well-typed record carries in
`data_quality.sourcePriority` (one optional tag per component group). -/
def FoodDataModel.winningTags (r : FoodDataModel) : List SourceTag :=
  match r.data_quality with
  | none => []
  | some dq =>
    match dq.sourcePriority with
    | none => []
    | some sp => [sp.standardNutrients, sp.brainNutrients, sp.bioactiveCompounds].filterMap id

/-! ## Concrete records and dynamic values used as counterexamples and
witness inputs -/

/-- A record with every standard-nutrient checklist field populated and no
`brain_nutrients` block: its completeness is 6/6 = 1. -/
def rAllStd : FoodDataModel :=
  { food_id := some "food_1", name := some "Oats", category := some "Grains",
    standard_nutrients := some
      { calories := some 389, protein_g := some 17, carbohydrates_g := some 66,
        fat_g := some 7, fiber_g := some 11, sugars_g := some 1 },
    data_quality := some { completeness := 1, overallConfidence := 8 },
    metadata := some (defaultMetadata "t0") }

/-- A record with one populated standard field and no optional blocks. -/
def rOneStd : FoodDataModel :=
  { food_id := some "food_2", name := some "Tea", category := some "Beverages",
    standard_nutrients := some { calories := some 1 },
    data_quality := some { completeness := 1/6, overallConfidence := 7 },
    metadata := some (defaultMetadata "t0") }

/-- `rOneStd` with an additional empty `brain_nutrients` block: the same
populated checklist fields, but a 14-field checklist. -/
def rOneStdEmptyBrain : FoodDataModel :=
  { rOneStd with brain_nutrients := some {} }

/-- A record whose `data_quality` is out of range on both scales. -/
def rBadQuality : FoodDataModel :=
  { food_id := some "food_3", name := some "X", category := some "Test",
    standard_nutrients := some {},
    data_quality := some { completeness := 2, overallConfidence := 0 },
    metadata := some (defaultMetadata "t0") }

/-- A mental-health impact whose scales are in range. -/
def impactGood : MentalHealthImpact :=
  { impact_type := .mood_elevation, direction := .positive,
    mechanism := "omega-3 membrane fluidity", strength := 7, confidence := 8 }

/-- A mental-health impact whose scales are both out of range. -/
def impactBad : MentalHealthImpact :=
  { impact_type := .cognitive_enhancement, direction := .positive,
    mechanism := "DHA", strength := 0, confidence := 11 }

/-- A record with one in-range and one out-of-range mental-health impact. -/
def rImpacts : FoodDataModel :=
  { food_id := some "food_4", name := some "Salmon", category := some "Seafood",
    standard_nutrients := some {},
    data_quality := some { completeness := 0, overallConfidence := 5 },
    metadata := some (defaultMetadata "t0"),
    mental_health_impacts := some [impactGood, impactBad] }

/-- A record carrying a full `sourcePriority` map. -/
def rTagged : FoodDataModel :=
  { food_id := some "food_5", name := some "Spinach", category := some "Vegetables",
    standard_nutrients := some {},
    data_quality := some
      { completeness := 0, overallConfidence := 5,
        sourcePriority := some
          { standardNutrients := some .usda, brainNutrients := some .literature,
            bioactiveCompounds := some .ai_generated } },
    metadata := some (defaultMetadata "t0") }

/-- A record with a brain-nutrients block storing a value and a zero. -/
def rBrain : FoodDataModel :=
  { food_id := some "food_6", name := some "Egg", category := some "Protein",
    standard_nutrients := some {},
    data_quality := some { completeness := 0, overallConfidence := 5 },
    metadata := some (defaultMetadata "t0"),
    brain_nutrients := some
      { tryptophan_mg := some 250, vitamin_b12_mcg := some 0,
        omega3 := some { epa_mg := some 5 } } }

/-- A dynamic value passing `isFoodData` although its `standard_nutrients`
is `null` (JavaScript `typeof null` is `"object"`). -/
def jNullStd : JsValue :=
  .vObj [("food_id", .vStr "food_7"), ("name", .vStr "Ghost"),
         ("category", .vStr "Test"), ("standard_nutrients", .vNull)]

/-- A minimal dynamic value accepted by `isFoodData`: no `data_quality`
and no `metadata`. -/
def jMinimal : JsValue :=
  .vObj [("food_id", .vStr "food_8"), ("name", .vStr "Rice"),
         ("category", .vStr "Grains"), ("standard_nutrients", .vObj [])]

/-- Own properties of a well-formed dynamic value carrying every required
and defaulted field explicitly. -/
def jFullProps : List (String × JsValue) :=
  [("food_id", .vStr "food_9"), ("name", .vStr "Kale"),
   ("category", .vStr "Vegetables"), ("standard_nutrients", .vObj [("calories", .vNum 35)]),
   ("data_quality", .vObj [("completeness", .vNum 1), ("overallConfidence", .vNum 9)]),
   ("metadata", .vObj [("version", .vStr "0.1.0")])]

/-- The dynamic value with the `jFullProps` own properties. -/
def jFull : JsValue := .vObj jFullProps

/-! ## Helper lemmas -/

/-- `calculateCompleteness` succeeds on every record whose
`standard_nutrients` object is present, and equals the populated fraction
of the checklist determined by the record's optional blocks. -/
theorem calculateCompleteness_eq (r : FoodDataModel) (sn : StandardNutrients)
    (h : r.standard_nutrients = some sn) :
    r.calculateCompleteness =
      some ((r.filledChecklistCount : ℚ) / (r.schemaFieldCount : ℚ)) := by
  rcases hbn : r.brain_nutrients with _ | bn
  · simp [FoodDataModel.calculateCompleteness, h, hbn,
      FoodDataModel.filledChecklistCount, FoodDataModel.schemaFieldCount,
      FoodDataModel.presentChecklist, FoodDataModel.getChecklistField,
      stdChecklist, getStdField, List.countP_cons, List.countP_map,
      Function.comp]
  · rcases ho : bn.omega3 with _ | o
    · simp [FoodDataModel.calculateCompleteness, h, hbn, ho,
        FoodDataModel.filledChecklistCount, FoodDataModel.schemaFieldCount,
        FoodDataModel.presentChecklist, FoodDataModel.getChecklistField,
        stdChecklist, brainChecklist, getStdField, getBrainField,
        List.countP_cons, List.countP_map, Function.comp]
      ring_nf
    · simp [FoodDataModel.calculateCompleteness, h, hbn, ho,
        FoodDataModel.filledChecklistCount, FoodDataModel.schemaFieldCount,
        FoodDataModel.presentChecklist, FoodDataModel.getChecklistField,
        stdChecklist, brainChecklist, omega3Checklist, getStdField,
        getBrainField, getOm3Field, List.countP_cons, List.countP_map,
        Function.comp]
      ring_nf

/-- The checklist always has at least its six standard fields. -/
theorem schemaFieldCount_pos (r : FoodDataModel) : 0 < r.schemaFieldCount := by
  rcases hbn : r.brain_nutrients with _ | bn
  · simp [FoodDataModel.schemaFieldCount, FoodDataModel.presentChecklist, hbn]
  · rcases ho : bn.omega3 with _ | o <;>
      simp [FoodDataModel.schemaFieldCount, FoodDataModel.presentChecklist, hbn, ho]

/-- No record populates more checklist fields than its checklist has. -/
theorem filledChecklistCount_le (r : FoodDataModel) :
    r.filledChecklistCount ≤ r.schemaFieldCount :=
  List.countP_le_length _

/-- Writing then reading the same or another standard checklist field. -/
theorem getStdField_set (sn : StandardNutrients) (f f' : StdField) (v : ℚ) :
    getStdField (setStdField sn f v) f' = if f' = f then some v else getStdField sn f' := by
  cases f <;> cases f' <;> simp [getStdField, setStdField]

/-- Writing then reading the same or another brain checklist field. -/
theorem getBrainField_set (bn : BrainNutrients) (f f' : BrainField) (v : ℚ) :
    getBrainField (setBrainField bn f v) f' = if f' = f then some v else getBrainField bn f' := by
  cases f <;> cases f' <;> simp [getBrainField, setBrainField]

/-- Writing then reading the same or another omega-3 checklist field. -/
theorem getOm3Field_set (o : Omega3) (f f' : Om3Field) (v : ℚ) :
    getOm3Field (setOm3Field o f v) f' = if f' = f then some v else getOm3Field o f' := by
  cases f <;> cases f' <;> simp [getOm3Field, setOm3Field]

/-- Every field of the empty standard-nutrients object is unset. -/
theorem getStdField_default (f : StdField) : getStdField {} f = none := by
  cases f <;> rfl

/-- Every field of the empty brain-nutrients object is unset. -/
theorem getBrainField_default (f : BrainField) : getBrainField {} f = none := by
  cases f <;> rfl

/-- Every field of the empty omega-3 object is unset. -/
theorem getOm3Field_default (f : Om3Field) : getOm3Field {} f = none := by
  cases f <;> rfl

/-- Writing a numeric brain field does not touch the `omega3` sub-object. -/
theorem setBrainField_omega3 (bn : BrainNutrients) (f : BrainField) (v : ℚ) :
    (setBrainField bn f v).omega3 = bn.omega3 := by
  cases f <;> rfl

/-- Replacing the `omega3` sub-object does not touch the numeric fields. -/
theorem getBrainField_withOmega3 (bn : BrainNutrients) (o : Option Omega3) (f : BrainField) :
    getBrainField { bn with omega3 := o } f = getBrainField bn f := by
  cases f <;> rfl

/-- A brain-nutrients object carrying only an `omega3` sub-object has all
its numeric fields unset. -/
theorem getBrainField_onlyOmega3 (o : Option Omega3) (f : BrainField) :
    getBrainField { omega3 := o } f = none := by
  cases f <;> rfl

/-- Reading back a populated checklist field: populating `cf` stores `v`
there and leaves every other checklist field untouched. -/
theorem getChecklistField_setChecklistField (r : FoodDataModel)
    (cf cf' : ChecklistField) (v : ℚ) :
    (r.setChecklistField cf v).getChecklistField cf' =
      if cf' = cf then some v else r.getChecklistField cf' := by
  rcases cf with f | f | f <;> rcases cf' with f' | f' | f'
  · rcases hsn : r.standard_nutrients with _ | sn <;> by_cases hff : f' = f <;>
      simp [FoodDataModel.setChecklistField, FoodDataModel.getChecklistField,
        hsn, hff, getStdField_set, getStdField_default]
  · simp [FoodDataModel.setChecklistField, FoodDataModel.getChecklistField]
  · simp [FoodDataModel.setChecklistField, FoodDataModel.getChecklistField]
  · simp [FoodDataModel.setChecklistField, FoodDataModel.getChecklistField]
  · rcases hbn : r.brain_nutrients with _ | bn <;> by_cases hff : f' = f <;>
      simp [FoodDataModel.setChecklistField, FoodDataModel.getChecklistField,
        hbn, hff, getBrainField_set, getBrainField_default]
  · rcases hbn : r.brain_nutrients with _ | bn <;>
      simp [FoodDataModel.setChecklistField, FoodDataModel.getChecklistField,
        hbn, setBrainField_omega3]
  · simp [FoodDataModel.setChecklistField, FoodDataModel.getChecklistField]
  · rcases hbn : r.brain_nutrients with _ | bn <;>
      simp [FoodDataModel.setChecklistField, FoodDataModel.getChecklistField,
        hbn, getBrainField_withOmega3, getBrainField_default, getBrainField_onlyOmega3]
  · rcases hbn : r.brain_nutrients with _ | bn
    · by_cases hff : f' = f <;>
        simp [FoodDataModel.setChecklistField, FoodDataModel.getChecklistField,
          hbn, hff, getOm3Field_set, getOm3Field_default]
    · rcases ho : bn.omega3 with _ | o <;> by_cases hff : f' = f <;>
        simp [FoodDataModel.setChecklistField, FoodDataModel.getChecklistField,
          hbn, ho, hff, getOm3Field_set, getOm3Field_default]

/-- Populating a checklist field whose enclosing block is already present
does not change the checklist `calculateCompleteness` walks. -/
theorem presentChecklist_set (r : FoodDataModel) (cf : ChecklistField) (v : ℚ)
    (hblk : r.blockPresent cf) :
    (r.setChecklistField cf v).presentChecklist = r.presentChecklist := by
  rcases cf with f | f | f
  · simp [FoodDataModel.setChecklistField, FoodDataModel.presentChecklist]
  · obtain ⟨hsn, hbn⟩ := hblk
    obtain ⟨bn, hbn'⟩ := Option.isSome_iff_exists.mp hbn
    simp [FoodDataModel.setChecklistField, FoodDataModel.presentChecklist,
      hbn', setBrainField_omega3]
  · obtain ⟨hsn, bn, hbn', ho⟩ := hblk
    obtain ⟨o, ho'⟩ := Option.isSome_iff_exists.mp ho
    simp [FoodDataModel.setChecklistField, FoodDataModel.presentChecklist,
      hbn', ho']

/-- Populating a checklist field of a present block never unpopulates
another: the populated count does not decrease. -/
theorem filledChecklistCount_le_set (r : FoodDataModel) (cf : ChecklistField) (v : ℚ)
    (hblk : r.blockPresent cf) :
    r.filledChecklistCount ≤ (r.setChecklistField cf v).filledChecklistCount := by
  unfold FoodDataModel.filledChecklistCount
  rw [presentChecklist_set r cf v hblk]
  apply List.countP_mono_left
  intro x hx hpx
  rw [getChecklistField_setChecklistField]
  by_cases hxc : x = cf
  · simp [hxc]
  · simpa [hxc] using hpx

/-! ## C1 — completeness monotonicity -/

/-- C1, counterexample: the claim quantifies over all added fields,
"including fields inside a previously absent brain_nutrients ... block".
`rAllStd` has all six standard checklist fields populated and no
`brain_nutrients`, so its completeness is 1; populating the single brain
field `tryptophan_mg` (which creates the block) drops completeness to
7/14 = 1/2 because the checklist grows from 6 to 14 fields.  So
populating a valid non-null field can strictly decrease
`calculateCompleteness`. -/
theorem completeness_monotonicity_counterexample :
    rAllStd.getChecklistField (.brain .tryptophan_mg) = none ∧
    rAllStd.brain_nutrients = none ∧
    rAllStd.calculateCompleteness = some 1 ∧
    (rAllStd.setChecklistField (.brain .tryptophan_mg) 100).calculateCompleteness
      = some (1/2) ∧
    ¬ ((1 : ℚ) ≤ 1/2) := by
  refine ⟨rfl, rfl, ?_, ?_, by norm_num⟩
  · show rAllStd.calculateCompleteness = some 1
    norm_num [FoodDataModel.calculateCompleteness, rAllStd, stdChecklist,
      List.countP_cons]
  · norm_num [FoodDataModel.calculateCompleteness, FoodDataModel.setChecklistField,
      rAllStd, stdChecklist, brainChecklist, setBrainField, List.countP_cons]

/-- C1 (amended): populating a not-yet-populated checklist field with a
valid non-null value never decreases `calculateCompleteness`, provided
populating it does not newly introduce the `brain_nutrients` or `omega3`
block (the block housing the field is already present).  When a block must
be created, the checklist grows and the score can drop (see the
counterexample). -/
theorem completeness_monotone_within_present_blocks (r : FoodDataModel)
    (cf : ChecklistField) (v : ℚ) (hblk : r.blockPresent cf)
    (hunset : r.getChecklistField cf = none) :
    ∃ q q', r.calculateCompleteness = some q ∧
      (r.setChecklistField cf v).calculateCompleteness = some q' ∧ q ≤ q' := by
  have hsn : ∃ sn, r.standard_nutrients = some sn := by
    rcases cf with f | f | f
    · exact Option.isSome_iff_exists.mp hblk
    · exact Option.isSome_iff_exists.mp hblk.1
    · exact Option.isSome_iff_exists.mp hblk.1
  obtain ⟨sn, hsn⟩ := hsn
  have hsn' : ∃ sn', (r.setChecklistField cf v).standard_nutrients = some sn' := by
    rcases cf with f | f | f
    · exact ⟨_, rfl⟩
    · exact ⟨sn, hsn⟩
    · exact ⟨sn, hsn⟩
  obtain ⟨sn', hsn'⟩ := hsn'
  refine ⟨_, _, calculateCompleteness_eq r sn hsn,
    calculateCompleteness_eq _ sn' hsn', ?_⟩
  have hden : (r.setChecklistField cf v).schemaFieldCount = r.schemaFieldCount := by
    unfold FoodDataModel.schemaFieldCount
    rw [presentChecklist_set r cf v hblk]
  rw [hden]
  have hc : (0 : ℚ) < (r.schemaFieldCount : ℚ) := by
    exact_mod_cast schemaFieldCount_pos r
  rw [div_le_div_iff_of_pos_right hc]
  exact_mod_cast filledChecklistCount_le_set r cf v hblk

/-- C1 witness: populating `tryptophan_mg` in a record whose (empty)
`brain_nutrients` block already exists does not decrease completeness. -/
theorem completeness_monotone_within_present_blocks_witness :
    ∃ q q', rOneStdEmptyBrain.calculateCompleteness = some q ∧
      (rOneStdEmptyBrain.setChecklistField (.brain .tryptophan_mg) 100).calculateCompleteness
        = some q' ∧ q ≤ q' :=
  completeness_monotone_within_present_blocks rOneStdEmptyBrain
    (.brain .tryptophan_mg) 100 (by exact ⟨rfl, rfl⟩) rfl

/-! ## C2 — completeness as a fixed-checklist fraction -/

/-- C2, counterexample: the denominator is not one checklist size shared
by all records.  `rOneStd` and `rOneStdEmptyBrain` populate exactly the
same checklist fields (one each), yet their completeness differs — 1/6
versus 1/14 — because the mere presence of an (entirely empty)
`brain_nutrients` block enlarges the checklist to 14 fields.  Under the
claimed record-independent denominator the two scores would be equal. -/
theorem completeness_fixed_denominator_counterexample :
    rOneStd.filledChecklistCount = 1 ∧
    rOneStdEmptyBrain.filledChecklistCount = 1 ∧
    rOneStd.calculateCompleteness = some (1/6) ∧
    rOneStdEmptyBrain.calculateCompleteness = some (1/14) ∧
    ((1 : ℚ)/6 ≠ 1/14) := by
  refine ⟨rfl, rfl, ?_, ?_, by norm_num⟩
  · norm_num [FoodDataModel.calculateCompleteness, rOneStd, stdChecklist,
      List.countP_cons]
  · norm_num [FoodDataModel.calculateCompleteness, rOneStdEmptyBrain, rOneStd,
      stdChecklist, brainChecklist, List.countP_cons]

/-- C2 (amended): `calculateCompleteness` is `filled_fields /
schema_fields` over the checklist determined by the record's optional
blocks: always the six standard fields, plus the eight brain-nutrient
fields when `brain_nutrients` is present, plus the four omega-3 fields
when `omega3` is present too — a denominator of 6, 14 or 18, fixed given
the block configuration, not one constant for all records. -/
theorem completeness_checklist_fraction (r : FoodDataModel) (sn : StandardNutrients)
    (h : r.standard_nutrients = some sn) :
    r.calculateCompleteness =
      some ((r.filledChecklistCount : ℚ) / (r.schemaFieldCount : ℚ)) ∧
    (r.schemaFieldCount = 6 ∨ r.schemaFieldCount = 14 ∨ r.schemaFieldCount = 18) := by
  refine ⟨calculateCompleteness_eq r sn h, ?_⟩
  rcases hbn : r.brain_nutrients with _ | bn
  · exact Or.inl (by simp [FoodDataModel.schemaFieldCount, FoodDataModel.presentChecklist, hbn])
  · rcases ho : bn.omega3 with _ | o
    · exact Or.inr (Or.inl (by
        simp [FoodDataModel.schemaFieldCount, FoodDataModel.presentChecklist, hbn, ho]))
    · exact Or.inr (Or.inr (by
        simp [FoodDataModel.schemaFieldCount, FoodDataModel.presentChecklist, hbn, ho]))

/-- C2 witness: the fraction shape evaluated on a concrete record. -/
theorem completeness_checklist_fraction_witness :
    rOneStd.calculateCompleteness =
      some ((rOneStd.filledChecklistCount : ℚ) / (rOneStd.schemaFieldCount : ℚ)) ∧
    (rOneStd.schemaFieldCount = 6 ∨ rOneStd.schemaFieldCount = 14 ∨
      rOneStd.schemaFieldCount = 18) :=
  completeness_checklist_fraction rOneStd { calories := some 1 } rfl

/-! ## C3 — completeness boundedness -/

/-- C3: for every record with its (required) `standard_nutrients` object
present — whatever combination of standard, brain and omega-3 checklist
fields is populated or not, and whether or not the optional blocks exist —
`calculateCompleteness` returns a value, and that value lies in [0, 1]. -/
theorem completeness_bounded (r : FoodDataModel) (sn : StandardNutrients)
    (h : r.standard_nutrients = some sn) :
    ∃ q, r.calculateCompleteness = some q ∧ 0 ≤ q ∧ q ≤ 1 := by
  refine ⟨_, calculateCompleteness_eq r sn h, ?_, ?_⟩
  · positivity
  · rw [div_le_one (by exact_mod_cast schemaFieldCount_pos r)]
    exact_mod_cast filledChecklistCount_le r

/-- C3 witness: boundedness evaluated on a concrete record with a partly
populated brain block. -/
theorem completeness_bounded_witness :
    ∃ q, rBrain.calculateCompleteness = some q ∧ 0 ≤ q ∧ q ≤ 1 :=
  completeness_bounded rBrain {} rfl

/-! ## Helper lemmas about `validate` -/

/-- Every error the impact loop emits is an impact-scale error. -/
theorem validateImpactsFrom_shape (l : List MentalHealthImpact) (n : ℕ)
    (e : ValidationError) (he : e ∈ validateImpactsFrom n l) :
    ∃ m, e = .impactStrength m ∨ e = .impactConfidence m := by
  induction l generalizing n with
  | nil => simp [validateImpactsFrom] at he
  | cons imp rest ih =>
    simp only [validateImpactsFrom, List.mem_append] at he
    rcases he with (he | he) | he
    · split_ifs at he with hc
      · simp only [List.mem_singleton] at he
        exact ⟨n, Or.inl he⟩
      · simp at he
    · split_ifs at he with hc
      · simp only [List.mem_singleton] at he
        exact ⟨n, Or.inr he⟩
      · simp at he
    · exact ih (n + 1) he

/-- Where a strength error for printed number `m` can come from: entry
`m - n` of the remaining list, counting from `n`. -/
theorem impactStrength_mem_iff (l : List MentalHealthImpact) (n m : ℕ) :
    (.impactStrength m ∈ validateImpactsFrom n l) ↔
      ∃ i imp, l.get? i = some imp ∧ m = n + i ∧
        (imp.strength < 1 ∨ imp.strength > 10) := by
  induction l generalizing n with
  | nil => simp [validateImpactsFrom]
  | cons imp rest ih =>
    constructor
    · intro h
      simp only [validateImpactsFrom, List.mem_append] at h
      rcases h with (h | h) | h
      · split_ifs at h with hc
        · simp only [List.mem_singleton, ValidationError.impactStrength.injEq] at h
          exact ⟨0, imp, rfl, by omega, hc⟩
        · simp at h
      · split_ifs at h with hc <;> simp at h
      · obtain ⟨j, imp', hj, hm, hp⟩ := (ih (n + 1)).mp h
        exact ⟨j + 1, imp', by simpa using hj, by omega, hp⟩
    · rintro ⟨i, imp', hi, rfl, hp⟩
      cases i with
      | zero =>
        simp only [List.get?_cons_zero, Option.some.injEq] at hi
        subst hi
        simp only [validateImpactsFrom, List.mem_append]
        exact Or.inl (Or.inl (by simp [hp]))
      | succ j =>
        simp only [List.get?_cons_succ] at hi
        simp only [validateImpactsFrom, List.mem_append]
        exact Or.inr ((ih (n + 1)).mpr ⟨j, imp', hi, by omega, hp⟩)

/-- Where a confidence error for printed number `m` can come from. -/
theorem impactConfidence_mem_iff (l : List MentalHealthImpact) (n m : ℕ) :
    (.impactConfidence m ∈ validateImpactsFrom n l) ↔
      ∃ i imp, l.get? i = some imp ∧ m = n + i ∧
        (imp.confidence < 1 ∨ imp.confidence > 10) := by
  induction l generalizing n with
  | nil => simp [validateImpactsFrom]
  | cons imp rest ih =>
    constructor
    · intro h
      simp only [validateImpactsFrom, List.mem_append] at h
      rcases h with (h | h) | h
      · split_ifs at h with hc <;> simp at h
      · split_ifs at h with hc
        · simp only [List.mem_singleton, ValidationError.impactConfidence.injEq] at h
          exact ⟨0, imp, rfl, by omega, hc⟩
        · simp at h
      · obtain ⟨j, imp', hj, hm, hp⟩ := (ih (n + 1)).mp h
        exact ⟨j + 1, imp', by simpa using hj, by omega, hp⟩
    · rintro ⟨i, imp', hi, rfl, hp⟩
      cases i with
      | zero =>
        simp only [List.get?_cons_zero, Option.some.injEq] at hi
        subst hi
        simp only [validateImpactsFrom, List.mem_append]
        exact Or.inl (Or.inr (by simp [hp]))
      | succ j =>
        simp only [List.get?_cons_succ] at hi
        simp only [validateImpactsFrom, List.mem_append]
        exact Or.inr ((ih (n + 1)).mpr ⟨j, imp', hi, by omega, hp⟩)

/-- Splits a `validate` membership question into segments: the five
identity checks, the data-quality checks and the impact loop. -/
theorem mem_validate_iff (r : FoodDataModel) (e : ValidationError) :
    e ∈ r.validate ↔
      (strFalsy r.food_id ∧ e = .missingFoodId) ∨
      (strFalsy r.name ∧ e = .missingName) ∨
      (strFalsy r.category ∧ e = .missingCategory) ∨
      (r.standard_nutrients = none ∧ e = .missingStandardNutrients) ∨
      (match r.data_quality with
       | none => e = .missingDataQuality
       | some dq =>
          ((dq.completeness < 0 ∨ dq.completeness > 1) ∧ e = .completenessRange) ∨
          ((dq.overallConfidence < 1 ∨ dq.overallConfidence > 10) ∧ e = .confidenceRange)) ∨
      (match r.mental_health_impacts with
       | none => False
       | some l => e ∈ validateImpactsFrom 1 l) := by
  have hite : ∀ (c : Prop) [Decidable c] (x : ValidationError),
      (e ∈ (if c then [x] else [])) ↔ (c ∧ e = x) := by
    intro c hc x
    split_ifs with h <;> simp [h]
  have himp : ∀ l : List MentalHealthImpact,
      (e ∈ (if l.length > 0 then validateImpactsFrom 1 l else [])) ↔
        e ∈ validateImpactsFrom 1 l := by
    intro l
    by_cases hl : l.length > 0
    · rw [if_pos hl]
    · rw [if_neg hl]
      have : l = [] := by
        cases l
        · rfl
        · simp at hl
      subst this
      simp [validateImpactsFrom]
  rcases hdq : r.data_quality with _ | dq <;>
    rcases hm : r.mental_health_impacts with _ | l <;>
    · simp only [FoodDataModel.validate, hdq, hm, List.mem_append, hite, himp,
        List.mem_singleton, List.not_mem_nil, or_assoc, or_false, false_or]

/-- The impact loop never emits the completeness range error. -/
theorem completenessRange_not_mem_impacts (l : List MentalHealthImpact) (n : ℕ) :
    ValidationError.completenessRange ∉ validateImpactsFrom n l := by
  intro hmem
  obtain ⟨m, hm | hm⟩ := validateImpactsFrom_shape l n _ hmem <;>
    exact ValidationError.noConfusion hm

/-- The impact loop never emits the confidence range error. -/
theorem confidenceRange_not_mem_impacts (l : List MentalHealthImpact) (n : ℕ) :
    ValidationError.confidenceRange ∉ validateImpactsFrom n l := by
  intro hmem
  obtain ⟨m, hm | hm⟩ := validateImpactsFrom_shape l n _ hmem <;>
    exact ValidationError.noConfusion hm

/-- The completeness range error is reported exactly when `completeness`
leaves [0,1]. -/
theorem completenessRange_mem (r : FoodDataModel) (dq : DataQuality)
    (h : r.data_quality = some dq) :
    (ValidationError.completenessRange ∈ r.validate) ↔
      (dq.completeness < 0 ∨ dq.completeness > 1) := by
  rcases hm : r.mental_health_impacts with _ | l <;>
    simp [mem_validate_iff, h, hm, completenessRange_not_mem_impacts]

/-- The confidence range error is reported exactly when
`overallConfidence` leaves [1,10]. -/
theorem confidenceRange_mem (r : FoodDataModel) (dq : DataQuality)
    (h : r.data_quality = some dq) :
    (ValidationError.confidenceRange ∈ r.validate) ↔
      (dq.overallConfidence < 1 ∨ dq.overallConfidence > 10) := by
  rcases hm : r.mental_health_impacts with _ | l <;>
    simp [mem_validate_iff, h, hm, confidenceRange_not_mem_impacts]

/-! ## C5 — data-quality range validation -/

/-- C5: for every record carrying a `data_quality` block, `validate`
reports a range error for that block (one of the two range messages) if
and only if `completeness` lies outside [0,1] or `overallConfidence` lies
outside [1,10]; when both are in range no data-quality range error is
emitted. -/
theorem dataQuality_range_error_iff (r : FoodDataModel) (dq : DataQuality)
    (h : r.data_quality = some dq) :
    ((ValidationError.completenessRange ∈ r.validate) ∨
     (ValidationError.confidenceRange ∈ r.validate)) ↔
      (dq.completeness < 0 ∨ dq.completeness > 1 ∨
       dq.overallConfidence < 1 ∨ dq.overallConfidence > 10) := by
  rw [completenessRange_mem r dq h, confidenceRange_mem r dq h, or_assoc]

/-- C5 witness: a record whose completeness is 2 and confidence 0 reports
a data-quality range error. -/
theorem dataQuality_range_error_iff_witness :
    (ValidationError.completenessRange ∈ rBadQuality.validate) ∨
    (ValidationError.confidenceRange ∈ rBadQuality.validate) :=
  (dataQuality_range_error_iff rBadQuality
    { completeness := 2, overallConfidence := 0 } rfl).mpr
    (Or.inr (Or.inl (by decide)))

/-! ## C6 — impact scale validation -/

/-- The strength error naming printed index `i + 1` appears in `validate`
exactly when entry `i` of the impact list has its strength out of [1,10]. -/
theorem impactStrength_mem_validate (r : FoodDataModel)
    (l : List MentalHealthImpact) (h : r.mental_health_impacts = some l)
    (i : ℕ) (imp : MentalHealthImpact) (hi : l.get? i = some imp) :
    (ValidationError.impactStrength (i + 1) ∈ r.validate) ↔
      (imp.strength < 1 ∨ imp.strength > 10) := by
  have hmain : (ValidationError.impactStrength (i + 1) ∈ validateImpactsFrom 1 l) ↔
      (imp.strength < 1 ∨ imp.strength > 10) := by
    rw [impactStrength_mem_iff]
    constructor
    · rintro ⟨j, imp', hj, hij, hp⟩
      have hji : j = i := by omega
      subst hji
      rw [hi] at hj
      injection hj with hj
      subst hj
      exact hp
    · intro hp
      exact ⟨i, imp, hi, by omega, hp⟩
  rcases hdq : r.data_quality with _ | dq <;>
    simp [mem_validate_iff, h, hdq, hmain]

/-- The confidence error naming printed index `i + 1` appears in `validate`
exactly when entry `i` of the impact list has its confidence out of [1,10]. -/
theorem impactConfidence_mem_validate (r : FoodDataModel)
    (l : List MentalHealthImpact) (h : r.mental_health_impacts = some l)
    (i : ℕ) (imp : MentalHealthImpact) (hi : l.get? i = some imp) :
    (ValidationError.impactConfidence (i + 1) ∈ r.validate) ↔
      (imp.confidence < 1 ∨ imp.confidence > 10) := by
  have hmain : (ValidationError.impactConfidence (i + 1) ∈ validateImpactsFrom 1 l) ↔
      (imp.confidence < 1 ∨ imp.confidence > 10) := by
    rw [impactConfidence_mem_iff]
    constructor
    · rintro ⟨j, imp', hj, hij, hp⟩
      have hji : j = i := by omega
      subst hji
      rw [hi] at hj
      injection hj with hj
      subst hj
      exact hp
    · intro hp
      exact ⟨i, imp, hi, by omega, hp⟩
  rcases hdq : r.data_quality with _ | dq <;>
    simp [mem_validate_iff, h, hdq, hmain]

/-- C6: for a record with a non-empty impact list, `validate` emits the
error naming impact number `i + 1` exactly for those entries `i` whose
strength (respectively confidence) lies outside [1,10], and emits no
impact-scale error for entries with both scales in range. -/
theorem impact_scale_errors_iff (r : FoodDataModel)
    (l : List MentalHealthImpact) (h : r.mental_health_impacts = some l)
    (_hne : l ≠ []) (i : ℕ) (imp : MentalHealthImpact) (hi : l.get? i = some imp) :
    ((ValidationError.impactStrength (i + 1) ∈ r.validate) ↔
      (imp.strength < 1 ∨ imp.strength > 10)) ∧
    ((ValidationError.impactConfidence (i + 1) ∈ r.validate) ↔
      (imp.confidence < 1 ∨ imp.confidence > 10)) :=
  ⟨impactStrength_mem_validate r l h i imp hi,
   impactConfidence_mem_validate r l h i imp hi⟩

/-- C6 witness: impact number 2 of `rImpacts` is out of range on both
scales, so both of its errors appear in `validate`. -/
theorem impact_scale_errors_iff_witness :
    ((ValidationError.impactStrength 2 ∈ rImpacts.validate) ↔
      (impactBad.strength < 1 ∨ impactBad.strength > 10)) ∧
    ((ValidationError.impactConfidence 2 ∈ rImpacts.validate) ↔
      (impactBad.confidence < 1 ∨ impactBad.confidence > 10)) :=
  impact_scale_errors_iff rImpacts [impactGood, impactBad] rfl
    (by simp) 1 impactBad rfl

/-! ## C7 — closed source-tag enumeration -/

/-- C7: every winning source tag a well-typed record records in
`data_quality.sourcePriority` is one of exactly the four tags of the
closed enumeration. -/
theorem sourcePriority_tags_closed (r : FoodDataModel) (t : SourceTag)
    (h : t ∈ r.winningTags) :
    t = .usda ∨ t = .openfoodfacts ∨ t = .literature ∨ t = .ai_generated := by
  cases t
  · exact Or.inl rfl
  · exact Or.inr (Or.inl rfl)
  · exact Or.inr (Or.inr (Or.inl rfl))
  · exact Or.inr (Or.inr (Or.inr rfl))

/-- C7 witness: the `usda` tag recorded by `rTagged` is in the closed
enumeration. -/
theorem sourcePriority_tags_closed_witness :
    SourceTag.usda ∈ rTagged.winningTags ∧
      (SourceTag.usda = .usda ∨ SourceTag.usda = .openfoodfacts ∨
       SourceTag.usda = .literature ∨ SourceTag.usda = .ai_generated) :=
  ⟨by decide, sourcePriority_tags_closed rTagged .usda (by decide)⟩

/-! ## C8 — zero collapses to absent at the accessors -/

/-- C8: for every record and nutrient name (flat or dotted),
`getBrainNutrient` returns `null` exactly when the block is absent, the
field is unset, or the stored value is 0, and returns the stored value
otherwise; `hasBrainNutrient` is `false` in exactly the same cases — a
measured zero is indistinguishable from missing data through these two
accessors. -/
theorem brain_accessor_zero_collapse (r : FoodDataModel) (nutrient : String) :
    (r.getBrainNutrient nutrient = none ↔
      (r.storedBrainValue nutrient = none ∨ r.storedBrainValue nutrient = some 0)) ∧
    (∀ v : ℚ, r.storedBrainValue nutrient = some v → v ≠ 0 →
      r.getBrainNutrient nutrient = some v) ∧
    (r.hasBrainNutrient nutrient = false ↔ r.getBrainNutrient nutrient = none) := by
  rcases hbn : r.brain_nutrients with _ | bn
  · simp [FoodDataModel.getBrainNutrient, FoodDataModel.storedBrainValue,
      FoodDataModel.hasBrainNutrient, hbn]
  · rcases hraw : rawBrainIndex bn nutrient with _ | v
    · simp [FoodDataModel.getBrainNutrient, FoodDataModel.storedBrainValue,
        FoodDataModel.hasBrainNutrient, hbn, hraw]
    · by_cases hv : v = 0 <;>
        simp [FoodDataModel.getBrainNutrient, FoodDataModel.storedBrainValue,
          FoodDataModel.hasBrainNutrient, hbn, hraw, hv]

/-- C8 witness: the dotted path reads the stored EPA value through the
accessor. -/
theorem brain_accessor_zero_collapse_witness :
    rBrain.getBrainNutrient ("omega3.epa_mg") = some 5 :=
  (brain_accessor_zero_collapse rBrain ("omega3.epa_mg")).2.1 5 rfl (by decide)

/-! ## C10 — a record constructed without quality metrics is never valid -/

/-- C10: every constructor input carrying no `data_quality` value (the key
absent, or present with a nullish value) yields a model whose `validate`
is non-empty: the absent key defaults `overallConfidence` to 0, outside
the 1–10 scale, and a present nullish value survives `Object.assign` as a
missing `data_quality`, which is reported as such. -/
theorem constructor_without_quality_invalid (d : ConstructorInput) (now : String)
    (h : d.data_quality = none ∨ d.data_quality = some none) :
    (mkFoodDataModel d now).validate ≠ [] := by
  rcases h with h | h
  · have hdq : (mkFoodDataModel d now).data_quality = some defaultDataQuality := by
      simp [mkFoodDataModel, objectAssign, constructorInit, h, jsOrObj]
    have hmem : ValidationError.confidenceRange ∈ (mkFoodDataModel d now).validate := by
      rw [confidenceRange_mem _ _ hdq]
      exact Or.inl (by norm_num [defaultDataQuality])
    exact List.ne_nil_of_mem hmem
  · have hdq : (mkFoodDataModel d now).data_quality = none := by
      simp [mkFoodDataModel, objectAssign, constructorInit, h]
    have hmem : ValidationError.missingDataQuality ∈ (mkFoodDataModel d now).validate := by
      rw [mem_validate_iff]
      rw [hdq]
      exact Or.inr (Or.inr (Or.inr (Or.inr (Or.inl rfl))))
    exact List.ne_nil_of_mem hmem

/-- C10 witness: the empty constructor input produces an invalid model. -/
theorem constructor_without_quality_invalid_witness :
    (mkFoodDataModel {} ("t0")).validate ≠ [] :=
  constructor_without_quality_invalid {} ("t0") (Or.inl rfl)

/-! ## Helper lemmas about dynamic property maps -/

theorem strBeqFalseOfNe {k k' : String} (h : ¬ k' = k) : (k == k') = false := by
  simp only [beq_eq_false_iff_ne]
  exact fun hk => h hk.symm

theorem find?_setProp (ps : List (String × JsValue)) (k : String) (v : JsValue) (k' : String) :
    List.find? (fun p => p.1 == k') (setProp ps k v) =
      if k' = k then some (k, v) else List.find? (fun p => p.1 == k') ps := by
  induction ps with
  | nil =>
    by_cases h : k' = k
    · subst h
      simp [setProp, List.find?]
    · simp [setProp, List.find?, strBeqFalseOfNe h, h]
  | cons p rest ih =>
    obtain ⟨pk, pv⟩ := p
    by_cases h1 : pk = k
    · subst h1
      by_cases h2 : k' = pk
      · subst h2
        simp [setProp, List.find?]
      · simp [setProp, List.find?, strBeqFalseOfNe h2, h2]
    · have hb1 : (pk == k) = false := by
        simp [beq_eq_false_iff_ne, h1]
      by_cases h2 : k' = pk
      · subst h2
        have hk : ¬ k' = k := fun hk => h1 (hk ▸ rfl)
        simp [setProp, List.find?, hb1, hk]
      · by_cases h3 : k' = k
        · subst h3
          simp [setProp, List.find?, hb1, strBeqFalseOfNe h2, ih]
        · simp [setProp, List.find?, hb1, strBeqFalseOfNe h2, strBeqFalseOfNe h3, h3, ih]

theorem getProp_setProp (ps : List (String × JsValue)) (k : String) (v : JsValue) (k' : String) :
    getProp (setProp ps k v) k' = if k' = k then v else getProp ps k' := by
  unfold getProp
  rw [find?_setProp]
  split_ifs <;> rfl

theorem getProp_assignProps_not_mem (ps : List (String × JsValue))
    (kvs : List (String × JsValue)) (k : String) (h : ∀ p ∈ kvs, p.1 ≠ k) :
    getProp (assignProps ps kvs) k = getProp ps k := by
  induction kvs generalizing ps with
  | nil => rfl
  | cons q rest ih =>
    obtain ⟨qk, qv⟩ := q
    simp only [assignProps]
    rw [ih _ (fun p hp => h p (List.mem_cons_of_mem _ hp)), getProp_setProp,
      if_neg (fun hk => (h (qk, qv) (List.mem_cons_self _ _)) hk.symm)]

theorem getProp_assignProps (ps kvs : List (String × JsValue)) (k : String)
    (hnd : (kvs.map Prod.fst).Nodup) :
    getProp (assignProps ps kvs) k =
      match kvs.find? (fun p => p.1 == k) with
      | some p => p.2
      | none => getProp ps k := by
  induction kvs generalizing ps with
  | nil => rfl
  | cons q rest ih =>
    obtain ⟨qk, qv⟩ := q
    simp only [List.map_cons, List.nodup_cons] at hnd
    obtain ⟨hqk, hnd'⟩ := hnd
    by_cases hk : qk = k
    · subst hk
      have hrest : ∀ p ∈ rest, p.1 ≠ qk := by
        intro p hp hpq
        exact hqk (hpq ▸ List.mem_map_of_mem Prod.fst hp)
      simp only [assignProps]
      rw [getProp_assignProps_not_mem _ _ _ hrest, getProp_setProp, if_pos rfl]
      simp [List.find?]
    · simp only [assignProps]
      rw [ih _ hnd']
      have hbeq : (qk == k) = false := by simp [hk]
      cases hfind : rest.find? (fun p => p.1 == k) with
      | some p => simp [List.find?, hbeq, hfind]
      | none =>
        simp only [List.find?, hbeq, hfind]
        rw [getProp_setProp, if_neg (fun h => hk h.symm)]

theorem getProp_tabulate (fields : List String) (g : String → JsValue) (f : String) :
    getProp (fields.map (fun x => (x, g x))) f = if f ∈ fields then g f else .vUndefined := by
  induction fields with
  | nil => simp [getProp, List.find?]
  | cons a rest ih =>
    by_cases h : a = f
    · subst h
      simp [getProp, List.find?]
    · have hb : (a == f) = false := by
        simp [beq_eq_false_iff_ne, h]
      have hiff : (f ∈ a :: rest) ↔ (f ∈ rest) := by
        rw [List.mem_cons]
        exact or_iff_right (fun hfa => h hfa.symm)
      calc getProp ((a :: rest).map fun x => (x, g x)) f
          = getProp (rest.map fun x => (x, g x)) f := by
            simp only [List.map_cons, getProp, List.find?, hb]
        _ = if f ∈ rest then g f else .vUndefined := ih
        _ = if f ∈ a :: rest then g f else .vUndefined := (if_congr hiff rfl rfl).symm

/-- A value has JavaScript `typeof` `"string"` exactly when it is a
string value. -/
theorem typeof_eq_string_iff (v : JsValue) :
    jsTypeof v = "string" ↔ isStringValue v = true := by
  cases v <;> simp [jsTypeof, isStringValue]

/-- A value has JavaScript `typeof` `"object"` exactly when it is `null`,
an array, or an actual object. -/
theorem typeof_eq_object_iff (v : JsValue) :
    jsTypeof v = "object" ↔
      (v = .vNull ∨ isArrayValue v = true ∨ isObjectValue v = true) := by
  cases v <;> simp [jsTypeof, isArrayValue, isObjectValue]

/-! ## C4 — when `fromJSON` throws -/

/-- C4, counterexample: `jNullStd` has string identity fields but a `null`
`standard_nutrients` — it lacks an *object* `standard_nutrients`, so by
the claim `fromJSON` should throw; it does not, because `isFoodData`
tests `typeof obj.standard_nutrients === "object"` and JavaScript's
`typeof null` is `"object"`. -/
theorem fromJSON_null_nutrients_counterexample :
    isObjectValue (jsGet jNullStd ("standard_nutrients")) = false ∧
    jsGet jNullStd ("standard_nutrients") = .vNull ∧
    isStringValue (jsGet jNullStd ("food_id")) = true ∧
    isStringValue (jsGet jNullStd ("name")) = true ∧
    isStringValue (jsGet jNullStd ("category")) = true ∧
    fromJSONJs jNullStd ("t0") = .ok (constructJs jNullStd ("t0")) :=
  ⟨rfl, rfl, rfl, rfl, rfl, rfl⟩

/-- C4 (amended): `fromJSON` throws if and only if the input is falsy, or
lacks a string `food_id`, `name` or `category`, or its
`standard_nutrients` is of a JavaScript `typeof` other than `"object"` —
and since `typeof null` (and `typeof` of an array) is `"object"`, a
`null` or array `standard_nutrients` is accepted, not rejected. -/
theorem fromJSON_error_characterization (j : JsValue) (now : String) :
    (∃ e, fromJSONJs j now = .error e) ↔
      ¬(jsTruthy j = true ∧
        isStringValue (jsGet j ("food_id")) = true ∧
        isStringValue (jsGet j ("name")) = true ∧
        isStringValue (jsGet j ("category")) = true ∧
        (jsGet j ("standard_nutrients") = .vNull ∨
         isArrayValue (jsGet j ("standard_nutrients")) = true ∨
         isObjectValue (jsGet j ("standard_nutrients")) = true)) := by
  have hiff : isFoodDataJs j = true ↔
      (jsTruthy j = true ∧
        isStringValue (jsGet j ("food_id")) = true ∧
        isStringValue (jsGet j ("name")) = true ∧
        isStringValue (jsGet j ("category")) = true ∧
        (jsGet j ("standard_nutrients") = .vNull ∨
         isArrayValue (jsGet j ("standard_nutrients")) = true ∨
         isObjectValue (jsGet j ("standard_nutrients")) = true)) := by
    simp only [isFoodDataJs, Bool.and_eq_true, beq_iff_eq, typeof_eq_string_iff,
      typeof_eq_object_iff]
    tauto
  unfold fromJSONJs
  split_ifs with hacc
  · rw [← hiff]
    constructor
    · rintro ⟨e, he⟩
      cases he
    · intro hn
      exact absurd hacc hn
  · rw [← hiff]
    constructor
    · intro _
      exact hacc
    · intro _
      exact ⟨_, rfl⟩

/-! ## C9 — serialization round trip -/

/-- C9, counterexample: `jMinimal` is accepted by `isFoodData` (it only
checks the three identity strings and `standard_nutrients`), yet the
round trip does not agree with it on the declared `data_quality` field:
the input has none, while the constructor substitutes its default
`{completeness: 0, overallConfidence: 0}` object, which `toJSON` then
emits. -/
theorem roundtrip_default_quality_counterexample :
    isFoodDataJs jMinimal = true ∧
    fromJSONJs jMinimal ("t0") = .ok (constructJs jMinimal ("t0")) ∧
    jsGet jMinimal ("data_quality") = .vUndefined ∧
    jsGet (toJSONJs (constructJs jMinimal ("t0"))) ("data_quality")
      = defaultDataQualityJs ∧
    defaultDataQualityJs ≠ .vUndefined :=
  ⟨rfl, rfl, rfl, rfl, fun h => JsValue.noConfusion h⟩

/-- C9 (amended): for every object accepted by `isFoodData`, `fromJSON`
does not throw, and the produced instance's `toJSON` agrees with the
input on every declared `FoodData` schema field, provided the input
carries own `data_quality` and `metadata` properties; when it does not,
those two fields (and only those) come back as the constructor's
defaults instead of absent. -/
theorem fromJSON_toJSON_partial_roundtrip (fs : List (String × JsValue)) (now : String)
    (hnd : (fs.map Prod.fst).Nodup)
    (hdq : hasProp fs ("data_quality") = true)
    (hmeta : hasProp fs ("metadata") = true)
    (inst : List (String × JsValue)) (hok : fromJSONJs (.vObj fs) now = .ok inst)
    (f : String) (hf : f ∈ declaredFields) :
    jsGet (toJSONJs inst) f = jsGet (.vObj fs) f := by
  have hacc : isFoodDataJs (.vObj fs) = true := by
    by_contra hacc
    simp [fromJSONJs, hacc] at hok
  have hinst : inst = constructJs (.vObj fs) now := by
    rw [fromJSONJs, if_pos hacc] at hok
    injection hok with hok
    exact hok.symm
  subst hinst
  have hL : jsGet (toJSONJs (constructJs (.vObj fs) now)) f
      = getProp (constructJs (.vObj fs) now) f := by
    show getProp (declaredFields.map fun x => (x, getProp (constructJs (.vObj fs) now) x)) f = _
    rw [getProp_tabulate, if_pos hf]
  rw [hL]
  show getProp (assignProps (constructBase (.vObj fs) now) (ownProps (.vObj fs))) f = _
  rw [show ownProps (.vObj fs) = fs from rfl, getProp_assignProps _ _ _ hnd]
  cases hfind : fs.find? (fun p => p.1 == f) with
  | some p => simp [jsGet, getProp, hfind]
  | none =>
    simp only [hfind]
    simp only [isFoodDataJs, Bool.and_eq_true, beq_iff_eq] at hacc
    obtain ⟨⟨⟨⟨htr, hfid⟩, hnm⟩, hcat⟩, hstd⟩ := hacc
    unfold declaredFields at hf
    fin_cases hf
    · exact absurd hfid (by simp [jsGet, getProp, hfind, jsTypeof])
    · exact absurd hnm (by simp [jsGet, getProp, hfind, jsTypeof])
    · simp [constructBase, getProp_setProp, jsGet, getProp, hfind, List.find?]
    · exact absurd hcat (by simp [jsGet, getProp, hfind, jsTypeof])
    · simp [constructBase, getProp_setProp, jsGet, getProp, hfind, List.find?]
    · exact absurd hstd (by simp [jsGet, getProp, hfind, jsTypeof])
    · simp [constructBase, getProp_setProp, jsGet, getProp, hfind, List.find?]
    · simp [constructBase, getProp_setProp, jsGet, getProp, hfind, List.find?]
    · simp [constructBase, getProp_setProp, jsGet, getProp, hfind, List.find?]
    · simp [constructBase, getProp_setProp, jsGet, getProp, hfind, List.find?]
    · simp [constructBase, getProp_setProp, jsGet, getProp, hfind, List.find?]
    · simp [constructBase, getProp_setProp, jsGet, getProp, hfind, List.find?]
    · simp [constructBase, getProp_setProp, jsGet, getProp, hfind, List.find?]
    · simp [constructBase, getProp_setProp, jsGet, getProp, hfind, List.find?]
    · simp [constructBase, getProp_setProp, jsGet, getProp, hfind, List.find?]
    · exact absurd hdq (by simp [hasProp, hfind])
    · exact absurd hmeta (by simp [hasProp, hfind])

/-- C9 witness: on an input that does carry `data_quality`, the round
trip agrees there. -/
theorem fromJSON_toJSON_partial_roundtrip_witness :
    jsGet (toJSONJs (constructJs (.vObj jFullProps) ("t0"))) ("data_quality")
      = jsGet (.vObj jFullProps) ("data_quality") :=
  fromJSON_toJSON_partial_roundtrip jFullProps ("t0") (by decide) rfl rfl
    (constructJs (.vObj jFullProps) ("t0")) rfl ("data_quality") (by decide)

end NutriPsych
